import Mathlib

/-!
# Verification of the Sathi AI duplex audio session engine

A shallow embedding of the session controller in `src/app.tsx` together
with the PCM codec it imports.  React state hooks and mutable refs are
modelled as fields of a single `AppState` record; calls into external
collaborators (the channel, the audio contexts, the microphone, the
key-selection dialog) are modelled as an emitted list of `Effect`s, in
the order the code performs them.  Times and sample amplitudes are
rationals.
-/

/-- The argument record of the `displayTargetWord` tool call, and the value
stored in the `targetWord` state. -/
structure TargetWord where
  word : String
  language : String
  deriving DecidableEq

/-- One inbound function call, as found in `message.toolCall.functionCalls`. -/
structure FunctionCall where
  id : String
  name : String
  args : TargetWord
  deriving DecidableEq

/-- Observable calls into external collaborators, in program order. -/
inductive Effect where
  /-- `sessionRef.current.close()` on the session with this handle id. -/
  | closeSession (sid : Nat)
  /-- `AudioContext.close()` on the context with this id. -/
  | closeCtx (cid : Nat)
  /-- `track.stop()` on every track of the microphone stream with this id. -/
  | stopMicTracks (mid : Nat)
  /-- `session.sendRealtimeInput({media})` of an encoded chunk to a session. -/
  | sendChunk (sid : Nat) (data : List ℤ)
  /-- `session.sendToolResponse` correlated by the function call id. -/
  | sendToolResponse (sid : Nat) (fid : String) (fname : String)
  /-- `window.aistudio.hasSelectedApiKey()`. -/
  | queryHasKey
  /-- `window.aistudio.openSelectKey()`. -/
  | openSelectKey
  /-- `navigator.mediaDevices.getUserMedia({audio:true})` succeeded. -/
  | acquireMic (mid : Nat)
  /-- `ai.live.connect` opened the channel with this session handle id. -/
  | openChannel (sid : Nat)
  /-- `source.start(t)` on a playback buffer source node. -/
  | startSource (srcId : Nat) (t : ℚ)
  /-- `s.stop()` on a scheduled buffer source node. -/
  | stopSource (srcId : Nat)
  deriving DecidableEq

/-- The component's state: every `useState` hook and every `useRef` of
`App` in `src/app.tsx`.  External handles (audio contexts, microphone
stream, session) are identified by numeric ids. -/
structure AppState where
  selectedSubject : Option String
  isActive : Bool
  userTranscription : String
  modelTranscription : String
  isConnecting : Bool
  isMuted : Bool
  targetWord : Option TargetWord
  errorMsg : Option String
  inputText : String
  inputAudioCtx : Option Nat
  outputAudioCtx : Option Nat
  session : Option Nat
  sources : List Nat
  nextStartTime : ℚ
  micStream : Option Nat
  isMutedRef : Bool
  deriving DecidableEq

/-- The initial values of all hooks and refs of `App`. -/
def initialState : AppState where
  selectedSubject := none
  isActive := false
  userTranscription := ""
  modelTranscription := ""
  isConnecting := false
  isMuted := false
  targetWord := none
  errorMsg := none
  inputText := ""
  inputAudioCtx := none
  outputAudioCtx := none
  session := none
  sources := []
  nextStartTime := 0
  micStream := none
  isMutedRef := false

/-- `stopSession` (app.tsx lines 53-77): closes the session handle if
present (close-time errors are swallowed by the `try/catch`, so the
function is total), resets the activity/mute/prompt/input state, closes
both audio contexts, stops the microphone tracks, and nulls all four
refs.  It does not touch `errorMsg`, the transcripts, `sources` or
`nextStartTime`. -/
def stopSession (s : AppState) : AppState × List Effect :=
  let e1 := match s.session with
    | some sid => [Effect.closeSession sid]
    | none => []
  let e2 := match s.inputAudioCtx with
    | some c => [Effect.closeCtx c]
    | none => []
  let e3 := match s.outputAudioCtx with
    | some c => [Effect.closeCtx c]
    | none => []
  let e4 := match s.micStream with
    | some m => [Effect.stopMicTracks m]
    | none => []
  ({ s with
      isActive := false
      isConnecting := false
      isMuted := false
      isMutedRef := false
      targetWord := none
      inputText := ""
      inputAudioCtx := none
      outputAudioCtx := none
      micStream := none
      session := none },
   e1 ++ e2 ++ e3 ++ e4)

/-- `toggleMute` (app.tsx lines 47-51): flips the mute state and keeps the
ref in sync with it. -/
def toggleMute (s : AppState) : AppState :=
  let nextMuted := !s.isMuted
  { s with isMuted := nextMuted, isMutedRef := nextMuted }

/-! ## PCM codec

`src/app.tsx` imports `createBlob`, `decode` and `decodeAudioData` from
`./services/audioService`, a file that is not part of the repository
sources.  The codec is therefore modelled from the specification. -/

/-- Modelled from the spec: one sample of `encode` in the missing
`src/services/audioService.ts` — clamps the sample to the representable
signed-16-bit range and converts from floating-point amplitude in
`[-1, 1]` by linear scaling with factor 32768. -/
def encodeSample (x : ℚ) : ℤ :=
  max (-32768) (min 32767 ⌊x * 32768⌋)

/-- Modelled from the spec: one sample of `decodeAudioData` in the missing
`src/services/audioService.ts` — divides the signed-16-bit value by the
same scale factor used by `encode`. -/
def decodeSample (i : ℤ) : ℚ :=
  (i : ℚ) / 32768

/-- Little-endian packing of one signed 16-bit value into two bytes
(values kept in `ℤ`, each in `[0, 255]`). -/
def packFrame : List ℤ → List ℤ
  | [] => []
  | i :: rest => i % 65536 % 256 :: i % 65536 / 256 :: packFrame rest

/-- Reassemble one signed 16-bit value from a little-endian byte pair. -/
def bytesToInt16 (lo hi : ℤ) : ℤ :=
  if lo + 256 * hi < 32768 then lo + 256 * hi else lo + 256 * hi - 65536

/-- Inverse of `packFrame`: consume the byte list pairwise. -/
def unpackFrame : List ℤ → List ℤ
  | lo :: hi :: rest => bytesToInt16 lo hi :: unpackFrame rest
  | _ => []

/-- Modelled from the spec: `createBlob` of the missing
`src/services/audioService.ts` (the `encode` of the codec) — scales and
clamps each floating-point sample to signed 16 bits and packs the result
little-endian.  The base64 text-safe wrapping is not modelled: `decode`
below is specified as its exact inverse, so the pair contributes the
identity on the packed bytes. -/
def createBlob (frame : List ℚ) : List ℤ :=
  packFrame (frame.map encodeSample)

/-- Modelled from the spec: `decode` of the missing
`src/services/audioService.ts` — undoes only the text-safe wrapping,
yielding the raw packed bytes. -/
def decode (chunk : List ℤ) : List ℤ :=
  chunk

/-- Modelled from the spec: `decodeAudioData` of the missing
`src/services/audioService.ts` — reads little-endian signed-16-bit pairs
and divides by the encode scale factor. -/
def decodeAudioData (bytes : List ℤ) : List ℚ :=
  (unpackFrame bytes).map decodeSample

/-- Duration in seconds of the playback buffer decoded from a byte
payload: `byteLength / 2` samples at 24000 Hz. -/
def bufferDuration (bytes : List ℤ) : ℚ :=
  ((bytes.length / 2 : ℕ) : ℚ) / 24000

/-! ## Capture pipeline -/

/-- `scriptProcessor.onaudioprocess` (app.tsx lines 150-157): reads the
mute ref; when muted the frame is dropped, otherwise it is encoded with
`createBlob` and sent to the session the capture callback's
`sessionPromise` resolved to. -/
def onaudioprocess (sid : Nat) (s : AppState) (frame : List ℚ) : List Effect :=
  if s.isMutedRef then []
  else [Effect.sendChunk sid (createBlob frame)]

/-! ## Playback scheduler -/

/-- The part of the audio branch of `onmessage` that runs before the
`await decodeAudioData ...` (app.tsx lines 184-188): guarded by the
presence of the output context ref, it clamps `nextStartTimeRef` up to
the output clock's current time, and the continuation captures the
context. Returns `none` when the guard fails (nothing happens). -/
def audioPhase1 (now : ℚ) (s : AppState) : Option (AppState × Nat) :=
  match s.outputAudioCtx with
  | none => none
  | some c => some ({ s with nextStartTime := max s.nextStartTime now }, c)

/-- The continuation of the audio branch after the decode `await`
(app.tsx lines 189-196): schedules a buffer source at the current
`nextStartTimeRef`, advances `nextStartTimeRef` by the buffer's duration
and registers the source in the active set.  Note it re-checks nothing
about the current state. -/
def audioPhase2 (srcId : Nat) (bytes : List ℤ) (s : AppState) : AppState × List Effect :=
  ({ s with
      nextStartTime := s.nextStartTime + bufferDuration bytes
      sources := srcId :: s.sources },
   [Effect.startSource srcId s.nextStartTime])

/-- The whole audio branch of `onmessage` (app.tsx lines 184-197), both
phases run back to back. -/
def audioStep (now : ℚ) (srcId : Nat) (bytes : List ℤ) (s : AppState) : AppState × List Effect :=
  match audioPhase1 now s with
  | none => (s, [])
  | some (s1, _) => audioPhase2 srcId bytes s1

/-- The `interrupted` branch of `onmessage` (app.tsx lines 207-211):
stops every registered source, clears the set and resets
`nextStartTimeRef` to 0. -/
def handleInterrupted (s : AppState) : AppState × List Effect :=
  ({ s with sources := [], nextStartTime := 0 },
   s.sources.map Effect.stopSource)

/-! ## Session controller: inbound message handling -/

/-- One inbound server message, the fields of `LiveServerMessage` that
`onmessage` reads: `toolCall.functionCalls`, the inlined audio payload of
the first model-turn part (already past the base64 `decode`, i.e. as raw
bytes), the two transcription fragments, and the `interrupted` flag. -/
structure ServerMessage where
  toolCalls : Option (List FunctionCall)
  audioData : Option (List ℤ)
  inputTranscription : Option String
  outputTranscription : Option String
  interrupted : Bool
  deriving DecidableEq

/-- The body of the `for (const fc of functionCalls)` loop (app.tsx lines
165-180): a call named `displayTargetWord` sets the target word from its
arguments and sends one tool response correlated by the call's id; any
other name does nothing. -/
def handleToolCall (sid : Nat) (s : AppState) (fc : FunctionCall) : AppState × List Effect :=
  if fc.name = "displayTargetWord" then
    ({ s with targetWord := some fc.args },
     [Effect.sendToolResponse sid fc.id fc.name])
  else (s, [])

/-- The tool-call loop of `onmessage` over the whole
`functionCalls` list, in order. -/
def handleToolCalls (sid : Nat) (s : AppState) : List FunctionCall → AppState × List Effect
  | [] => (s, [])
  | fc :: rest =>
    let r := handleToolCall sid s fc
    let r2 := handleToolCalls sid r.1 rest
    (r2.1, r.2 ++ r2.2)

/-- `onmessage` (app.tsx lines 162-212), processed atomically (the decode
`await` interleaving is modelled separately by `audioPhase1` /
`audioPhase2`): tool calls first, then the audio branch, then the
transcription appends, then the `interrupted` branch.  `sid` is the
session the enclosing `sessionPromise` resolves to, `now` the output
clock's current time, `srcId` the identity of the buffer source node the
audio branch would create. -/
def onmessage (sid srcId : Nat) (now : ℚ) (m : ServerMessage) (s : AppState) : AppState × List Effect :=
  let r1 := match m.toolCalls with
    | some calls => handleToolCalls sid s calls
    | none => (s, [])
  let r2 := match m.audioData with
    | some bytes => audioStep now srcId bytes r1.1
    | none => (r1.1, [])
  let s3 := match m.inputTranscription with
    | some t => { r2.1 with userTranscription := r2.1.userTranscription ++ " " ++ t }
    | none => r2.1
  let s4 := match m.outputTranscription with
    | some t => { s3 with modelTranscription := s3.modelTranscription ++ " " ++ t }
    | none => s3
  let r5 := if m.interrupted then handleInterrupted s4 else (s4, [])
  (r5.1, r1.2 ++ r2.2 ++ r5.2)

/-! ## Session controller: error handling -/

/-- Whether `pat` occurs at the head of `hay`. -/
def listStartsWith : List Char → List Char → Bool
  | _, [] => true
  | [], _ :: _ => false
  | a :: as, b :: bs => a = b && listStartsWith as bs

/-- Whether `pat` occurs as a contiguous run anywhere in `hay`
(JavaScript's `String.prototype.includes`). -/
def containsSeq : List Char → List Char → Bool
  | [], pat => pat.isEmpty
  | h :: t, pat => listStartsWith (h :: t) pat || containsSeq t pat

/-- `msg.includes(pat)` on strings. -/
def msgContains (msg pat : String) : Bool :=
  containsSeq msg.data pat.data

/-- The condition of `onerror`'s branch (app.tsx line 218): the message
contains one of the two entitlement-class substrings. -/
def isEntitlementError (msg : String) : Bool :=
  msgContains msg "Operation is not implemented" ||
    msgContains msg "Requested entity was not found"

/-- `onerror` (app.tsx lines 213-228): the error's message (defaulted to
"Network error" when absent) selects between the entitlement path — a
distinct actionable error message, `openSelectKey`, then `stopSession`
once the dialog resolves — and the generic path, which surfaces the
message and stops immediately. -/
def onerror (errMsg : Option String) (s : AppState) : AppState × List Effect :=
  let msg := errMsg.getD "Network error"
  if isEntitlementError msg then
    let keyMsg := "Sathi AI needs a specific key. Please select a Paid Project key from the dialog."
    let s1 := { s with errorMsg := some keyMsg }
    let r := stopSession s1
    (r.1, Effect.openSelectKey :: r.2)
  else
    let s1 := { s with errorMsg := some msg }
    let r := stopSession s1
    (r.1, r.2)

/-! ## Session controller: starting a session -/

/-- The environment a `startSession` run unfolds in: the outcome of the
key-selection collaborator (`hasKeyResult = none` models
`hasSelectedApiKey` throwing; `openKeyThrows` models `openSelectKey`
rejecting) and the identities of the resources the success path
acquires. -/
structure StartEnv where
  hasKeyResult : Option Bool
  openKeyThrows : Bool
  inCtxId : Nat
  outCtxId : Nat
  micId : Nat
  sid : Nat
  deriving DecidableEq

/-- `handleApiKeySelection` (app.tsx lines 79-92): queries
`hasSelectedApiKey`; when it reports no key, opens the selection dialog;
any rejection is caught and turned into `false`.  Returns the boolean
result (which `startSession` discards) and the collaborator calls
made. -/
def handleApiKeySelection (env : StartEnv) : Bool × List Effect :=
  match env.hasKeyResult with
  | none => (false, [Effect.queryHasKey])
  | some true => (true, [Effect.queryHasKey])
  | some false =>
    if env.openKeyThrows then (false, [Effect.queryHasKey, Effect.openSelectKey])
    else (true, [Effect.queryHasKey, Effect.openSelectKey])

/-- `startSession` (app.tsx lines 106-243) along its success path (mic
permission granted, channel connect succeeds, `onopen` fires): bails out
only when already `Connecting`; otherwise resets the per-session state,
awaits the key pre-check (ignoring its result), overwrites the context /
microphone / session refs with freshly acquired resources and becomes
active.  Note that no step stops or closes resources held by a previous
session: the old refs are simply overwritten. -/
def startSession (subject : String) (env : StartEnv) (s : AppState) : AppState × List Effect :=
  if s.isConnecting then (s, [])
  else
    let s1 := { s with
      isConnecting := true
      errorMsg := none
      selectedSubject := some subject
      isMuted := false
      isMutedRef := false
      targetWord := none
      userTranscription := ""
      modelTranscription := "" }
    let key := handleApiKeySelection env
    let s2 := { s1 with
      inputAudioCtx := some env.inCtxId
      outputAudioCtx := some env.outCtxId
      micStream := some env.micId }
    let s3 := { s2 with isActive := true, isConnecting := false }
    let s4 := { s3 with session := some env.sid }
    (s4, key.2 ++ [Effect.acquireMic env.micId, Effect.openChannel env.sid])

/-! ## Concrete fixtures -/

/-- A representative `Active` state: session handle 1 open, microphone
stream 2 live, input context 3 and output context 4 allocated. -/
def c1Active : AppState :=
  { initialState with
      isActive := true
      selectedSubject := some "Maths"
      session := some 1
      micStream := some 2
      inputAudioCtx := some 3
      outputAudioCtx := some 4 }

/-- A start environment whose key pre-check reports a selected key and
which hands out fresh resource ids 5-8. -/
def c1Env : StartEnv :=
  ⟨some true, false, 5, 6, 7, 8⟩

/-- The state captured by the audio branch of `c1Active` after its
pre-`await` phase at output-clock time 0. -/
def c9Mid : AppState :=
  { c1Active with nextStartTime := max c1Active.nextStartTime 0 }

/-! # Theorems -/

/-- C4: stop() is idempotent: from any state, calling stop() twice in
succession produces the same end state (Idle, session handle, audio
contexts and microphone refs all cleared, MuteFlag and TargetWordPrompt
reset) as calling it once, and the second call raises no error — here the
second call returns the very same state and performs no external call at
all. -/
theorem c4_stop_idempotent (s : AppState) :
    stopSession (stopSession s).1 = ((stopSession s).1, []) ∧
    (stopSession s).1.isActive = false ∧
    (stopSession s).1.session = none ∧
    (stopSession s).1.inputAudioCtx = none ∧
    (stopSession s).1.outputAudioCtx = none ∧
    (stopSession s).1.micStream = none ∧
    (stopSession s).1.isMuted = false ∧
    (stopSession s).1.isMutedRef = false ∧
    (stopSession s).1.targetWord = none := by
  refine ⟨?_, rfl, rfl, rfl, rfl, rfl, rfl, rfl, rfl⟩
  simp [stopSession]

/-- C5: a frame delivered while the mute ref is set produces no chunk and
no transmission (and no error: the handler is total); with the mute ref
clear the frame is encoded with `createBlob` and sent; and toggling mute
off from a muted state makes the very next delivered frame go out. -/
theorem c5_mute_gating (sid : Nat) (s : AppState) (frame : List ℚ) :
    (s.isMutedRef = true → onaudioprocess sid s frame = []) ∧
    (s.isMutedRef = false →
      onaudioprocess sid s frame = [Effect.sendChunk sid (createBlob frame)]) ∧
    (s.isMuted = true →
      onaudioprocess sid (toggleMute s) frame = [Effect.sendChunk sid (createBlob frame)]) := by
  refine ⟨fun h => ?_, fun h => ?_, fun h => ?_⟩ <;>
    simp [onaudioprocess, toggleMute, h]

/-- Witness for C5 at a concrete muted state and one-sample frame. -/
theorem c5_witness :
    onaudioprocess 1 { initialState with isMuted := true, isMutedRef := true } [0] = [] ∧
    onaudioprocess 1 (toggleMute { initialState with isMuted := true, isMutedRef := true }) [0] =
      [Effect.sendChunk 1 (createBlob [0])] :=
  ⟨(c5_mute_gating 1 _ [0]).1 rfl, (c5_mute_gating 1 _ [0]).2.2 rfl⟩

/-- C6: a tool-call event whose single call is named `displayTargetWord`
sets the target word to the call's arguments and sends exactly one tool
response carrying the call's id; a call with any other name leaves the
state unchanged and sends nothing (and raises no error: the handler is
total). -/
theorem c6_tool_call (sid srcId : Nat) (now : ℚ) (s : AppState) (fc : FunctionCall) :
    (fc.name = "displayTargetWord" →
      onmessage sid srcId now ⟨some [fc], none, none, none, false⟩ s =
        ({ s with targetWord := some fc.args },
         [Effect.sendToolResponse sid fc.id fc.name])) ∧
    (fc.name ≠ "displayTargetWord" →
      onmessage sid srcId now ⟨some [fc], none, none, none, false⟩ s = (s, [])) := by
  constructor <;> intro h <;>
    simp [onmessage, handleToolCalls, handleToolCall, h]

/-- Witness for C6: the spec's scenario, `displayTargetWord` with
arguments word "nine", language "English" and call id "call-7", next to
an unknown tool name that is ignored. -/
theorem c6_witness :
    onmessage 1 9 0 ⟨some [⟨"call-7", "displayTargetWord", ⟨"nine", "English"⟩⟩],
        none, none, none, false⟩ c1Active =
      ({ c1Active with targetWord := some ⟨"nine", "English"⟩ },
       [Effect.sendToolResponse 1 "call-7" "displayTargetWord"]) ∧
    onmessage 1 9 0 ⟨some [⟨"call-8", "someFutureTool", ⟨"x", "y"⟩⟩],
        none, none, none, false⟩ c1Active = (c1Active, []) :=
  ⟨(c6_tool_call 1 9 0 c1Active ⟨"call-7", "displayTargetWord", ⟨"nine", "English"⟩⟩).1 rfl,
   (c6_tool_call 1 9 0 c1Active ⟨"call-8", "someFutureTool", ⟨"x", "y"⟩⟩).2 (by decide)⟩

/-- A decoded buffer never has negative duration. -/
theorem bufferDuration_nonneg (bytes : List ℤ) : 0 ≤ bufferDuration bytes := by
  unfold bufferDuration
  positivity

/-- `stopSession` only ever calls close/stop operations, never the
key-selection dialog. -/
theorem openSelectKey_not_mem_stopSession (s : AppState) :
    Effect.openSelectKey ∉ (stopSession s).2 := by
  cases h1 : s.session <;> cases h2 : s.inputAudioCtx <;>
    cases h3 : s.outputAudioCtx <;> cases h4 : s.micStream <;>
    simp [stopSession, h1, h2, h3, h4]

/-- C3: processing a message carrying (only) the `interrupted` signal
stops every currently-scheduled segment, including ones not yet started,
leaves the active segment set empty and resets `nextStartTime` to 0; the
next audio enqueue then anchors to the current output clock (any
non-negative clock value) rather than the pre-interrupt timeline. -/
theorem c3_interrupt (sid srcId : Nat) (now : ℚ) (s : AppState) :
    (onmessage sid srcId now ⟨none, none, none, none, true⟩ s).1.sources = [] ∧
    (onmessage sid srcId now ⟨none, none, none, none, true⟩ s).1.nextStartTime = 0 ∧
    (onmessage sid srcId now ⟨none, none, none, none, true⟩ s).2 =
      s.sources.map Effect.stopSource ∧
    (∀ src ∈ s.sources,
      Effect.stopSource src ∈ (onmessage sid srcId now ⟨none, none, none, none, true⟩ s).2) ∧
    (∀ (srcId2 c : Nat) (now2 : ℚ) (bytes : List ℤ),
      s.outputAudioCtx = some c → 0 ≤ now2 →
      (audioStep now2 srcId2 bytes
          (onmessage sid srcId now ⟨none, none, none, none, true⟩ s).1).2 =
        [Effect.startSource srcId2 now2]) := by
  have hmsg : onmessage sid srcId now ⟨none, none, none, none, true⟩ s =
      ({ s with sources := [], nextStartTime := 0 }, s.sources.map Effect.stopSource) := by
    simp [onmessage, handleInterrupted]
  refine ⟨by rw [hmsg], by rw [hmsg], by rw [hmsg], ?_, ?_⟩
  · intro src h
    rw [hmsg]
    exact List.mem_map_of_mem _ h
  · intro srcId2 c now2 bytes hc hn
    rw [hmsg]
    simp [audioStep, audioPhase1, audioPhase2, hc, max_eq_right hn]

/-- Witness for C3: two segments 21 and 22 are scheduled; the interrupt
stops both, zeroes the timeline, and a follow-up enqueue at clock time 5
starts at 5. -/
theorem c3_witness :
    (onmessage 1 9 0 ⟨none, none, none, none, true⟩
        { c1Active with sources := [21, 22] }).1.nextStartTime = 0 ∧
    Effect.stopSource 21 ∈
      (onmessage 1 9 0 ⟨none, none, none, none, true⟩
        { c1Active with sources := [21, 22] }).2 ∧
    (audioStep 5 30 [0, 0]
        (onmessage 1 9 0 ⟨none, none, none, none, true⟩
          { c1Active with sources := [21, 22] }).1).2 =
      [Effect.startSource 30 5] := by
  refine ⟨(c3_interrupt 1 9 0 _).2.1, ?_, ?_⟩
  · exact (c3_interrupt 1 9 0 _).2.2.2.1 21 (by simp)
  · exact (c3_interrupt 1 9 0 _).2.2.2.2 30 4 5 [0, 0] rfl (by norm_num)

/-- C7: a channel error whose message contains one of the entitlement
substrings surfaces the distinct actionable message and opens the
key-selection dialog before any teardown call, then stops; every other
error surfaces the error's own message (defaulted to "Network error")
and stops immediately without touching the key-selection dialog. -/
theorem c7_error_handling (s : AppState) (em : Option String) :
    (isEntitlementError (em.getD "Network error") = true →
      (onerror em s).1.errorMsg =
        some "Sathi AI needs a specific key. Please select a Paid Project key from the dialog." ∧
      (onerror em s).2 = Effect.openSelectKey :: (stopSession s).2 ∧
      (onerror em s).1.isActive = false ∧
      (onerror em s).1.session = none ∧
      (onerror em s).1.micStream = none) ∧
    (isEntitlementError (em.getD "Network error") = false →
      (onerror em s).1.errorMsg = some (em.getD "Network error") ∧
      Effect.openSelectKey ∉ (onerror em s).2 ∧
      (onerror em s).1.isActive = false ∧
      (onerror em s).1.session = none ∧
      (onerror em s).1.micStream = none) := by
  constructor <;> intro h
  · refine ⟨?_, ?_, ?_, ?_, ?_⟩ <;> simp [onerror, h, stopSession]
  · refine ⟨?_, ?_, ?_, ?_, ?_⟩
    · simp [onerror, h, stopSession]
    · simp only [onerror, h, Bool.false_eq_true, if_false]
      exact openSelectKey_not_mem_stopSession _
    · simp [onerror, h, stopSession]
    · simp [onerror, h, stopSession]
    · simp [onerror, h, stopSession]

/-- Witness for C7: the spec's scenario message "Requested entity was not
found" takes the entitlement path; "boom" takes the generic path. -/
theorem c7_witness :
    (onerror (some "Requested entity was not found") c1Active).2 =
      Effect.openSelectKey :: (stopSession c1Active).2 ∧
    (onerror (some "boom") c1Active).1.errorMsg = some "boom" ∧
    Effect.openSelectKey ∉ (onerror (some "boom") c1Active).2 :=
  ⟨((c7_error_handling c1Active (some "Requested entity was not found")).1 (by decide)).2.1,
   ((c7_error_handling c1Active (some "boom")).2 (by decide)).1,
   ((c7_error_handling c1Active (some "boom")).2 (by decide)).2.1⟩

/-- Counterexample to C1: starting a new session from an `Active` state
(session 1 open, microphone 2 live, contexts 3 and 4 allocated) reaches
`Active` again, yet the run performs no close of session 1, no stop of
microphone 2 and no close of either context — the prior session is not
stopped at all, its refs are merely overwritten. -/
theorem c1_counterexample :
    c1Active.isActive = true ∧
    (startSession "Maths" c1Env c1Active).1.isActive = true ∧
    (startSession "Maths" c1Env c1Active).1.session = some 8 ∧
    Effect.closeSession 1 ∉ (startSession "Maths" c1Env c1Active).2 ∧
    Effect.stopMicTracks 2 ∉ (startSession "Maths" c1Env c1Active).2 ∧
    Effect.closeCtx 3 ∉ (startSession "Maths" c1Env c1Active).2 ∧
    Effect.closeCtx 4 ∉ (startSession "Maths" c1Env c1Active).2 := by
  decide

/-- C1 as amended: `startSession` returns immediately when already
`Connecting`; from any other state — including `Active` — it proceeds to
a new `Active` session without stopping the prior one: the whole run
performs no session close, no microphone stop and no context close, and
the prior handles are only overwritten. -/
theorem c1_start_no_teardown (subject : String) (env : StartEnv) (s : AppState)
    (h : s.isConnecting = false) :
    (startSession subject env s).1.isActive = true ∧
    (startSession subject env s).1.session = some env.sid ∧
    (startSession subject env s).1.micStream = some env.micId ∧
    (∀ sid, Effect.closeSession sid ∉ (startSession subject env s).2) ∧
    (∀ mid, Effect.stopMicTracks mid ∉ (startSession subject env s).2) ∧
    (∀ cid, Effect.closeCtx cid ∉ (startSession subject env s).2) ∧
    (∀ s2 : AppState, s2.isConnecting = true → startSession subject env s2 = (s2, [])) := by
  have he : (startSession subject env s).2 =
      (handleApiKeySelection env).2 ++
        [Effect.acquireMic env.micId, Effect.openChannel env.sid] := by
    simp [startSession, h]
  have hkey : (handleApiKeySelection env).2 = [Effect.queryHasKey] ∨
      (handleApiKeySelection env).2 = [Effect.queryHasKey, Effect.openSelectKey] := by
    unfold handleApiKeySelection
    rcases hk : env.hasKeyResult with _ | b
    · left; rfl
    · cases b
      · by_cases ho : env.openKeyThrows <;> simp [ho]
      · left; rfl
  refine ⟨by simp [startSession, h], by simp [startSession, h], by simp [startSession, h],
    ?_, ?_, ?_, ?_⟩
  · intro sid
    rw [he]
    rcases hkey with hk | hk <;> simp [hk]
  · intro mid
    rw [he]
    rcases hkey with hk | hk <;> simp [hk]
  · intro cid
    rw [he]
    rcases hkey with hk | hk <;> simp [hk]
  · intro s2 h2
    simp [startSession, h2]

/-- Witness for C1 as amended, at the concrete `Active` state and a
concrete `Connecting` state. -/
theorem c1_witness :
    (startSession "Maths" c1Env c1Active).1.isActive = true ∧
    Effect.closeSession 5 ∉ (startSession "Maths" c1Env c1Active).2 ∧
    startSession "Maths" c1Env { initialState with isConnecting := true } =
      ({ initialState with isConnecting := true }, []) :=
  ⟨(c1_start_no_teardown "Maths" c1Env c1Active rfl).1,
   (c1_start_no_teardown "Maths" c1Env c1Active rfl).2.2.2.1 5,
   (c1_start_no_teardown "Maths" c1Env c1Active rfl).2.2.2.2.2.2
     { initialState with isConnecting := true } rfl⟩

/-- C10: the key-selection pre-check never prevents the session from
starting — the resulting state is identical for every outcome of the
collaborator (key present, key absent, `hasSelectedApiKey` throwing,
`openSelectKey` rejecting), and the run still acquires the microphone,
opens the channel and becomes active. -/
theorem c10_key_selection_nonblocking (subject : String) (s : AppState)
    (h : s.isConnecting = false) (k1 k2 : Option Bool) (t1 t2 : Bool) (i o m d : Nat) :
    (startSession subject ⟨k1, t1, i, o, m, d⟩ s).1 =
      (startSession subject ⟨k2, t2, i, o, m, d⟩ s).1 ∧
    (startSession subject ⟨k1, t1, i, o, m, d⟩ s).1.micStream = some m ∧
    (startSession subject ⟨k1, t1, i, o, m, d⟩ s).1.session = some d ∧
    (startSession subject ⟨k1, t1, i, o, m, d⟩ s).1.isActive = true ∧
    Effect.acquireMic m ∈ (startSession subject ⟨k1, t1, i, o, m, d⟩ s).2 ∧
    Effect.openChannel d ∈ (startSession subject ⟨k1, t1, i, o, m, d⟩ s).2 := by
  refine ⟨?_, ?_, ?_, ?_, ?_, ?_⟩ <;> simp [startSession, h]

/-- Witness for C10: `hasSelectedApiKey` throwing with a rejecting dialog
yields the very same state as a clean pre-check, and the microphone is
still acquired. -/
theorem c10_witness :
    (startSession "Maths" ⟨none, true, 5, 6, 7, 8⟩ initialState).1 =
      (startSession "Maths" ⟨some true, false, 5, 6, 7, 8⟩ initialState).1 ∧
    Effect.acquireMic 7 ∈ (startSession "Maths" ⟨none, true, 5, 6, 7, 8⟩ initialState).2 :=
  ⟨(c10_key_selection_nonblocking "Maths" initialState rfl none (some true) true false 5 6 7 8).1,
   (c10_key_selection_nonblocking "Maths" initialState rfl none (some true) true false 5 6 7 8).2.2.2.2.1⟩

/-- C2: three audio payloads enqueued in order, with no interrupt in
between and the output clock never outrunning the already-scheduled
timeline, are scheduled at t0, t0 + d1 and t0 + d1 + d2 where
t0 = max(nextStartTime, clock) at the first enqueue and the d's are the
decoded buffer durations; the start times are monotonically
non-decreasing and consecutive segments neither overlap nor leave a gap
(each starts exactly where the previous one ends). -/
theorem c2_scheduler_ordering (s : AppState) (c i1 i2 i3 : Nat) (now1 now2 now3 : ℚ)
    (b1 b2 b3 : List ℤ) (hctx : s.outputAudioCtx = some c)
    (h2 : now2 ≤ max s.nextStartTime now1 + bufferDuration b1)
    (h3 : now3 ≤ max s.nextStartTime now1 + bufferDuration b1 + bufferDuration b2) :
    (audioStep now1 i1 b1 s).2 =
      [Effect.startSource i1 (max s.nextStartTime now1)] ∧
    (audioStep now2 i2 b2 (audioStep now1 i1 b1 s).1).2 =
      [Effect.startSource i2 (max s.nextStartTime now1 + bufferDuration b1)] ∧
    (audioStep now3 i3 b3 (audioStep now2 i2 b2 (audioStep now1 i1 b1 s).1).1).2 =
      [Effect.startSource i3
        (max s.nextStartTime now1 + bufferDuration b1 + bufferDuration b2)] ∧
    max s.nextStartTime now1 ≤ max s.nextStartTime now1 + bufferDuration b1 ∧
    max s.nextStartTime now1 + bufferDuration b1 ≤
      max s.nextStartTime now1 + bufferDuration b1 + bufferDuration b2 := by
  set t0 := max s.nextStartTime now1 with ht0
  set d1 := bufferDuration b1 with hd1
  set d2 := bufferDuration b2 with hd2
  set d3 := bufferDuration b3 with hd3
  have e1 : audioStep now1 i1 b1 s =
      ({ s with nextStartTime := t0 + d1, sources := i1 :: s.sources },
       [Effect.startSource i1 t0]) := by
    simp [audioStep, audioPhase1, audioPhase2, hctx, ht0, hd1]
  have m2 : max (t0 + d1) now2 = t0 + d1 := max_eq_left h2
  have e2 : audioStep now2 i2 b2 (audioStep now1 i1 b1 s).1 =
      ({ s with nextStartTime := t0 + d1 + d2, sources := i2 :: i1 :: s.sources },
       [Effect.startSource i2 (t0 + d1)]) := by
    rw [e1]
    simp [audioStep, audioPhase1, audioPhase2, hctx, m2, hd2]
  have m3 : max (t0 + d1 + d2) now3 = t0 + d1 + d2 := max_eq_left h3
  have e3 : audioStep now3 i3 b3 (audioStep now2 i2 b2 (audioStep now1 i1 b1 s).1).1 =
      ({ s with nextStartTime := t0 + d1 + d2 + d3, sources := i3 :: i2 :: i1 :: s.sources },
       [Effect.startSource i3 (t0 + d1 + d2)]) := by
    rw [e2]
    simp [audioStep, audioPhase1, audioPhase2, hctx, m3, hd3]
  refine ⟨by rw [e1], by rw [e2], by rw [e3], ?_, ?_⟩
  · have := bufferDuration_nonneg b1
    rw [← hd1] at this
    linarith
  · have := bufferDuration_nonneg b2
    rw [← hd2] at this
    linarith

/-- Witness for C2: concrete back-to-back schedule on the active fixture
state with clock pinned at 0 and two-byte / four-byte payloads. -/
theorem c2_witness :
    (audioStep 0 11 [0, 0] c1Active).2 =
      [Effect.startSource 11 (max c1Active.nextStartTime 0)] ∧
    (audioStep 0 12 [0, 0, 0, 0] (audioStep 0 11 [0, 0] c1Active).1).2 =
      [Effect.startSource 12 (max c1Active.nextStartTime 0 + bufferDuration [0, 0])] := by
  have h := c2_scheduler_ordering c1Active 4 11 12 13 0 0 0 [0, 0] [0, 0, 0, 0] [] rfl
    (by norm_num [c1Active, initialState, bufferDuration])
    (by norm_num [c1Active, initialState, bufferDuration])
  exact ⟨h.1, h.2.1⟩

/-- The clamp in `encodeSample` keeps every encoded value at or above the
smallest signed-16-bit value. -/
theorem encodeSample_lb (x : ℚ) : -32768 ≤ encodeSample x :=
  le_max_left _ _

/-- The clamp in `encodeSample` keeps every encoded value at or below the
largest signed-16-bit value. -/
theorem encodeSample_ub (x : ℚ) : encodeSample x ≤ 32767 :=
  max_le (by norm_num) (min_le_left _ _)

/-- Little-endian unpacking inverts packing on any in-range signed-16-bit
value. -/
theorem bytesToInt16_pack (i : ℤ) (h1 : -32768 ≤ i) (h2 : i ≤ 32767) :
    bytesToInt16 (i % 65536 % 256) (i % 65536 / 256) = i := by
  unfold bytesToInt16
  split <;> omega

/-- `unpackFrame` inverts `packFrame` on frames of in-range values. -/
theorem unpackFrame_packFrame (l : List ℤ)
    (h : ∀ i ∈ l, -32768 ≤ i ∧ i ≤ 32767) :
    unpackFrame (packFrame l) = l := by
  induction l with
  | nil => rfl
  | cons i rest ih =>
    have hi := h i (List.mem_cons_self i rest)
    simp [packFrame, unpackFrame, bytesToInt16_pack i hi.1 hi.2,
      ih fun j hj => h j (List.mem_cons_of_mem i hj)]

/-- One sample survives encode-then-decode within half a quantisation
step below, one full step above — in particular within 1/32768. -/
theorem roundtrip_sample (x : ℚ) (h1 : -1 ≤ x) (h2 : x ≤ 1) :
    |decodeSample (encodeSample x) - x| ≤ 1 / 32768 := by
  have hy1 : ((⌊x * 32768⌋ : ℤ) : ℚ) ≤ x * 32768 := Int.floor_le _
  have hy2 : x * 32768 < ⌊x * 32768⌋ + 1 := Int.lt_floor_add_one _
  have hlb : (-32768 : ℤ) ≤ ⌊x * 32768⌋ := by
    apply Int.le_floor.mpr
    push_cast
    linarith
  rcases le_or_lt (⌊x * 32768⌋) 32767 with hub | hub
  · have he : encodeSample x = ⌊x * 32768⌋ := by
      unfold encodeSample
      rw [min_eq_right hub, max_eq_right hlb]
    rw [he]
    unfold decodeSample
    rw [abs_le]
    constructor
    · linarith
    · linarith
  · have hx : x = 1 := by
      have hc : ((32768 : ℤ) : ℚ) ≤ (⌊x * 32768⌋ : ℚ) := by
        exact_mod_cast hub
      push_cast at hc
      linarith
    subst hx
    have he : encodeSample 1 = 32767 := by
      unfold encodeSample
      rw [min_eq_left hub.le, max_eq_right (by norm_num)]
    rw [he]
    unfold decodeSample
    rw [abs_le]
    constructor <;> norm_num

/-- C8: for every frame of samples each in the interval from -1 to 1,
decoding the encoded frame — `decodeAudioData` of `decode` of the
encoder `createBlob` — yields a frame of the same length whose samples
each differ from the original by at most 1/32768. -/
theorem c8_roundtrip (frame : List ℚ) (h : ∀ x ∈ frame, -1 ≤ x ∧ x ≤ 1) :
    (decodeAudioData (decode (createBlob frame))).length = frame.length ∧
    List.Forall₂ (fun y x => |y - x| ≤ 1 / 32768)
      (decodeAudioData (decode (createBlob frame))) frame := by
  have hup : unpackFrame (packFrame (frame.map encodeSample)) = frame.map encodeSample :=
    unpackFrame_packFrame _ (by
      intro i hi
      rcases List.mem_map.mp hi with ⟨x, _, rfl⟩
      exact ⟨encodeSample_lb x, encodeSample_ub x⟩)
  have hdec : decodeAudioData (decode (createBlob frame)) =
      frame.map fun x => decodeSample (encodeSample x) := by
    simp [decodeAudioData, decode, createBlob, hup, List.map_map]
  constructor
  · rw [hdec, List.length_map]
  · rw [hdec]
    rw [List.forall₂_map_left_iff, List.forall₂_same]
    intro x hx
    exact roundtrip_sample x (h x hx).1 (h x hx).2

/-- Witness for C8 on a concrete four-sample frame spanning the domain,
including both clamp boundaries. -/
theorem c8_witness :
    List.Forall₂ (fun y x => |y - x| ≤ 1 / 32768)
      (decodeAudioData (decode (createBlob [0, 1, -1, 1 / 2]))) [0, 1, -1, 1 / 2] :=
  (c8_roundtrip [0, 1, -1, 1 / 2] (by
    intro x hx
    fin_cases hx <;> norm_num)).2

/-- Counterexample to C9: an audio-decode continuation in flight when
stop() completes is not cancelled.  From the `Active` fixture the audio
branch passes its pre-decode phase (capturing output context 4), then
`stopSession` brings the controller to `Idle` (inactive, session ref
cleared) — yet when the decode continuation then runs it still schedules
playback of the segment and advances `nextStartTime`, mutating the
post-stop state. -/
theorem c9_counterexample :
    audioPhase1 0 c1Active = some (c9Mid, 4) ∧
    (stopSession c9Mid).1.isActive = false ∧
    (stopSession c9Mid).1.session = none ∧
    (audioPhase2 9 [0, 0] (stopSession c9Mid).1).2 =
      [Effect.startSource 9 (stopSession c9Mid).1.nextStartTime] ∧
    (audioPhase2 9 [0, 0] (stopSession c9Mid).1).1.sources ≠
      (stopSession c9Mid).1.sources ∧
    (audioPhase2 9 [0, 0] (stopSession c9Mid).1).1.nextStartTime ≠
      (stopSession c9Mid).1.nextStartTime := by
  refine ⟨rfl, rfl, rfl, rfl, by simp [audioPhase2, stopSession, c9Mid, c1Active, initialState], ?_⟩
  simp [audioPhase2, stopSession, c9Mid, c1Active, initialState, bufferDuration]

/-- C9 as amended: stop() cancels nothing in flight.  A whole audio
message arriving after stop() is a no-op (its pre-decode phase fails on
the cleared output-context ref), but a decode continuation that had
already passed its `await` when stop() ran re-checks nothing: applied to
any state it schedules the segment at that state's `nextStartTime`,
advances `nextStartTime` by the buffer duration and registers the
source, with no check that the session is still the currently-owned
one. -/
theorem c9_stale_continuation (s : AppState) (now : ℚ) (srcId : Nat) (bytes : List ℤ) :
    audioPhase1 now (stopSession s).1 = none ∧
    (audioPhase2 srcId bytes (stopSession s).1).2 =
      [Effect.startSource srcId s.nextStartTime] ∧
    (audioPhase2 srcId bytes (stopSession s).1).1.sources = srcId :: s.sources ∧
    (audioPhase2 srcId bytes (stopSession s).1).1.nextStartTime =
      s.nextStartTime + bufferDuration bytes := by
  refine ⟨?_, rfl, rfl, rfl⟩
  simp [audioPhase1, stopSession]
